import Mathlib

/-!
Shallow embedding of `src/js/main.js` (client-side behavior layer of a
static navigation webpage): the frozen `CONFIG` object, the `Utils`
helpers (`sanitizeInput`, `isValidUrl`, `debounce`) and the `App`
orchestrator handlers (`handleCardClick`, the navigation-link click
handler, `initializeCards`, `updateHeaderVisibility`,
`updateScrollIndicator`, `initializeIntersectionObserver` / `cleanup`).

JavaScript values that the code type-tests (`typeof str !== 'string'`)
are modelled by `JsInput`; machine numbers by `Int`/`Nat`/`Rat`;
fallible platform operations by `Option`.
-/

/-- A JavaScript value as far as the helpers inspect one: the code only
distinguishes strings (`typeof x === 'string'`) from everything else. -/
inductive JsInput where
  | vstr (s : String)
  | vnum (n : Int)
  | vbool (b : Bool)
  | vnull
  | vundef
deriving DecidableEq

/-- Result of the platform `new URL(...)` constructor: the two components
`Utils.isValidUrl` reads, `url.protocol` (scheme with trailing colon,
lower-cased) and `url.hostname` (lower-cased). -/
structure URLRec where
  protocol : String
  hostname : String
deriving DecidableEq

/-- Characters allowed in a URL scheme after the first (letters, digits,
`+`, `-`, `.`). -/
def isSchemeChar (c : Char) : Bool :=
  c.isAlpha || c.isDigit || c = '+' || c = '-' || c = '.'

/-- Characters that end the host portion of an authority. -/
def isHostEnd (c : Char) : Bool :=
  c = '/' || c = '?' || c = '#' || c = ':'

/-- The platform URL constructor, as far as `Utils.isValidUrl` consumes it
(it is a browser primitive, not repository code): an absolute URL is a
scheme (letter followed by scheme characters) then `:`; when `//` follows,
the host runs up to the next `/`, `?`, `#` or `:`; scheme and host are
lower-cased. An http/https URL with an empty host fails to parse, as the
constructor throws on those. Relative references (no scheme) fail. -/
def parseURL (s : String) : Option URLRec :=
  let cs := s.toList
  let scheme := cs.takeWhile isSchemeChar
  let rest := cs.drop scheme.length
  match scheme, rest with
  | [], _ => none
  | c :: _, ':' :: afterColon =>
    if !c.isAlpha then none
    else
      let schemeL := String.mk (scheme.map Char.toLower)
      match afterColon with
      | '/' :: '/' :: auth =>
        let host := String.mk ((auth.takeWhile (fun c => !isHostEnd c)).map Char.toLower)
        if (schemeL = "http" || schemeL = "https") && host = "" then none
        else some { protocol := schemeL ++ ":", hostname := host }
      | _ => some { protocol := schemeL ++ ":", hostname := "" }
  | _, _ => none

/-- JavaScript `s.endsWith(t)`: `t` is a suffix of `s`, computed on the
character lists so that it evaluates by kernel reduction. -/
def jsEndsWith (s t : String) : Bool :=
  s.toList.reverse.take t.length == t.toList.reverse

/-- JavaScript `s.startsWith(t)`: `t` is a prefix of `s`, computed on the
character lists so that it evaluates by kernel reduction. -/
def jsStartsWith (s t : String) : Bool :=
  s.toList.take t.length == t.toList

/-- `Utils.isValidUrl(string, allowedDomains = [])` from `src/js/main.js`
lines 48-65: non-strings and parse failures are rejected; the protocol
must be exactly `http:` or `https:`; with a non-empty allow-list the
hostname must equal an allowed domain or end with `'.' + domain`. -/
def isValidUrl (string : JsInput) (allowedDomains : List String) : Bool :=
  match string with
  | .vstr s =>
    match parseURL s with
    | none => false
    | some url =>
      let isValidProtocol := url.protocol = "http:" || url.protocol = "https:"
      if allowedDomains.length > 0 then
        let isValidDomain := allowedDomains.any fun domain =>
          url.hostname = domain || jsEndsWith url.hostname ("." ++ domain)
        isValidProtocol && isValidDomain
      else
        isValidProtocol
  | _ => false

/-- `Utils.sanitizeInput(str)` from `src/js/main.js` lines 35-40:
non-strings give `''`; for a string the code does
`div.textContent = str; return div.textContent`, and the `textContent`
setter/getter round-trip returns the string unchanged (the setter stores
one text node verbatim, the getter reads it back; no characters are
rewritten). -/
def sanitizeInput (str : JsInput) : String :=
  match str with
  | .vstr s => s
  | _ => ""

/-- A string is markup-neutral when it cannot open a tag if handed to a
markup parser: it contains no `<` character. Text-node encoding of a
string (`&lt;` etc.) always produces a markup-neutral string. -/
def markupNeutral (s : String) : Bool :=
  !(s.toList.any (fun c => c = '<'))

example : isValidUrl (.vstr "https://example.com/x") ["example.com"] = true := by decide
example : isValidUrl (.vstr "https://evil.com") ["example.com"] = false := by decide
example : isValidUrl (.vstr "ftp://example.com") ["example.com"] = false := by decide
example : isValidUrl (.vstr "https://sub.example.com") ["example.com"] = true := by decide
example : isValidUrl (.vstr "not a url") ["example.com"] = false := by decide
example : isValidUrl (.vstr "https://anything.org") [] = true := by decide
example : isValidUrl (.vstr "https://blog.qulluq.com/") ["qulluq.com", "blog.qulluq.com"] = true := by decide

/-- A leaf value inside the configuration: a string, a number, or an
array of strings with its own frozen flag (`Object.freeze` on
`allowedDomains`). -/
inductive Leaf where
  | lstr (s : String)
  | lnum (n : Int)
  | larr (frozen : Bool) (xs : List String)
deriving DecidableEq

/-- One nested section of `CONFIG` (`urls`, `security`, `selectors`,
`classes`, `animation`): an object with a frozen flag and named leaf
fields. -/
structure CfgSection where
  frozen : Bool
  fields : List (String × Leaf)
deriving DecidableEq

/-- The top-level configuration object: a frozen flag (`Object.freeze`
on the outer literal) and its named sections. -/
structure Config where
  frozen : Bool
  sections : List (String × CfgSection)
deriving DecidableEq

/-- `CONFIG` from `src/js/main.js` lines 4-26. `Object.freeze` is applied
to the outer object, to `urls`, to `security` and to `allowedDomains`;
the `selectors`, `classes` and `animation` literals are NOT frozen. -/
def CONFIG : Config :=
  { frozen := true
    sections :=
      [ ("urls", { frozen := true
                   fields := [("blog", .lstr "https://blog.qulluq.com/")] })
      , ("security", { frozen := true
                       fields := [ ("allowedDomains", .larr true ["qulluq.com", "blog.qulluq.com"])
                                 , ("maxRedirectDelay", .lnum 1000) ] })
      , ("selectors", { frozen := false
                        fields := [ ("loading", .lstr "#loading")
                                  , ("scrollIndicator", .lstr "#scrollIndicator")
                                  , ("navLinks", .lstr ".nav-links a")
                                  , ("navCards", .lstr ".nav-card")
                                  , ("header", .lstr "header") ] })
      , ("classes", { frozen := false
                      fields := [("hidden", .lstr "hidden")] })
      , ("animation", { frozen := false
                        fields := [ ("loadingDelay", .lnum 1000)
                                  , ("navigationDelay", .lnum 500) ] }) ] }

/-- Replace the value bound to `k` in an association list, or append the
binding when the key is absent (JavaScript property assignment adds
missing properties). -/
def setAssoc (k : String) (v : α) : List (String × α) → List (String × α)
  | [] => [(k, v)]
  | (k', v') :: rest => if k' = k then (k, v) :: rest else (k', v') :: setAssoc k v rest

/-- Strict-mode assignment `CONFIG.sec = v` to a top-level property:
throws (`none`) when the outer object is frozen, otherwise updates. -/
def setTopLevel (cfg : Config) (sec : String) (v : CfgSection) : Option Config :=
  if cfg.frozen then none
  else some { cfg with sections := setAssoc sec v cfg.sections }

/-- Strict-mode assignment `CONFIG.sec.k = v` to a field of a nested
section: throws (`none`) when that section object is frozen or the
section does not exist, otherwise updates the field in place. -/
def setSectionField (cfg : Config) (sec k : String) (v : Leaf) : Option Config :=
  match (cfg.sections.find? (fun p => p.1 = sec)) with
  | none => none
  | some (_, s) =>
    if s.frozen then none
    else
      some { cfg with
             sections := setAssoc sec { s with fields := setAssoc k v s.fields } cfg.sections }

/-- Strict-mode assignment `arr[i] = x` to an element of a string-array
leaf at `CONFIG.sec.k`: throws (`none`) when the array is frozen, the
index is out of range, or the leaf is not an array. -/
def setArrayElem (cfg : Config) (sec k : String) (i : Nat) (x : String) : Option Config :=
  match (cfg.sections.find? (fun p => p.1 = sec)) with
  | none => none
  | some (_, s) =>
    match (s.fields.find? (fun p => p.1 = k)) with
    | some (_, .larr frozen xs) =>
      if frozen || xs.length ≤ i then none
      else
        some { cfg with
               sections := setAssoc sec
                 { s with fields := setAssoc k (.larr frozen (xs.set i x)) s.fields }
                 cfg.sections }
    | _ => none

/-- The configuration after the successful mutation
`CONFIG.selectors.loading = '#changed'` (the `selectors` literal is not
frozen, so the assignment goes through). -/
def CONFIG_mutated : Config :=
  { frozen := true
    sections :=
      [ ("urls", { frozen := true
                   fields := [("blog", .lstr "https://blog.qulluq.com/")] })
      , ("security", { frozen := true
                       fields := [ ("allowedDomains", .larr true ["qulluq.com", "blog.qulluq.com"])
                                 , ("maxRedirectDelay", .lnum 1000) ] })
      , ("selectors", { frozen := false
                        fields := [ ("loading", .lstr "#changed")
                                  , ("scrollIndicator", .lstr "#scrollIndicator")
                                  , ("navLinks", .lstr ".nav-links a")
                                  , ("navCards", .lstr ".nav-card")
                                  , ("header", .lstr "header") ] })
      , ("classes", { frozen := false
                      fields := [("hidden", .lstr "hidden")] })
      , ("animation", { frozen := false
                        fields := [ ("loadingDelay", .lnum 1000)
                                  , ("navigationDelay", .lnum 500) ] }) ] }

/-- Lookup `CONFIG.urls[section]` as the card-click handler performs it:
`none` when the section has no entry or the entry is not a string. -/
def configUrl (cfg : Config) (section_ : String) : Option String :=
  match (cfg.sections.find? (fun p => p.1 = "urls")) with
  | some (_, s) =>
    match (s.fields.find? (fun p => p.1 = section_)) with
    | some (_, .lstr u) => some u
    | _ => none
  | none => none

/-- Lookup `CONFIG.security.allowedDomains`. -/
def configAllowedDomains (cfg : Config) : List String :=
  match (cfg.sections.find? (fun p => p.1 = "security")) with
  | some (_, s) =>
    match (s.fields.find? (fun p => p.1 = "allowedDomains")) with
    | some (_, .larr _ xs) => xs
    | _ => []
  | none => []

example : setSectionField CONFIG "selectors" "loading" (.lstr "#changed") = some CONFIG_mutated := by decide
example : setSectionField CONFIG "urls" "blog" (.lstr "https://x.test/") = none := by decide
example : setArrayElem CONFIG "security" "allowedDomains" 0 "evil.com" = none := by decide
example : configUrl CONFIG "blog" = some "https://blog.qulluq.com/" := by decide
example : configAllowedDomains CONFIG = ["qulluq.com", "blog.qulluq.com"] := by decide

/-- A console log entry produced by a handler. -/
inductive LogEntry where
  | warn (msg : String)
  | error (msg : String)
deriving DecidableEq

/-- Observable outcome of one `App.handleCardClick` invocation: the
console entries it emitted and the navigation it scheduled via
`setTimeout` (delay in milliseconds together with the target URL), if
any. -/
structure CardClickResult where
  logs : List LogEntry
  scheduledNav : Option (Nat × String)
deriving DecidableEq

/-- `App.handleCardClick(link, section)` from `src/js/main.js` lines
298-327, with the global `CONFIG` reads passed explicitly (`urls` is the
`CONFIG.urls` lookup, `allowedDomains` is
`CONFIG.security.allowedDomains`, and the two delays are
`CONFIG.animation.navigationDelay` and
`CONFIG.security.maxRedirectDelay`). The guard `if (!targetUrl)` is
JavaScript falsiness: a missing entry and an empty-string entry both
take the warning branch. On a URL that fails `Utils.isValidUrl` the
handler logs one error and returns; otherwise it schedules
`window.location.href = targetUrl` after
`Math.min(navigationDelay, maxRedirectDelay)` milliseconds. -/
def handleCardClick (urls : String → Option String) (allowedDomains : List String)
    (navigationDelay maxRedirectDelay : Nat) (section_ : String) : CardClickResult :=
  let targetUrl := urls section_
  match targetUrl with
  | none =>
    { logs := [.warn ("No URL configured for section: " ++ section_)], scheduledNav := none }
  | some u =>
    if u = "" then
      { logs := [.warn ("No URL configured for section: " ++ section_)], scheduledNav := none }
    else if !(isValidUrl (.vstr u) allowedDomains) then
      { logs := [.error ("Invalid or unauthorized URL: " ++ u)], scheduledNav := none }
    else
      { logs := [], scheduledNav := some (min navigationDelay maxRedirectDelay, u) }

/-- Action taken by the navigation-link click handler beyond
`preventDefault`. -/
inductive NavAction where
  | openBlank (url : String)
  | scrollIntoView (targetId : String)
  | noAction
deriving DecidableEq

/-- Observable outcome of one click on a navigation link. -/
structure NavClickResult where
  defaultPrevented : Bool
  action : NavAction
deriving DecidableEq

/-- The click handler installed by `App.initializeNavigation`
(`src/js/main.js` lines 237-258), with its environment passed explicitly:
`href` is `link.getAttribute('href')` (`none` when the attribute is
absent), `urls` is the `CONFIG.urls` lookup, and `elemExists` tells
whether `Utils.safeQuerySelector(targetId)` finds an element. The
handler calls `e.preventDefault()` unconditionally as its first
statement; only then does it test `targetId && targetId.startsWith('#')`
and, inside that branch, open a configured URL in a new tab or smooth-
scroll to the in-page element. `if (CONFIG.urls[sectionName])` is a
falsiness test, so an empty-string entry does not open a tab. -/
def navLinkClick (href : Option String) (urls : String → Option String)
    (elemExists : String → Bool) : NavClickResult :=
  let defaultPrevented := true
  match href with
  | none => { defaultPrevented, action := .noAction }
  | some targetId =>
    if targetId ≠ "" ∧ jsStartsWith targetId "#" then
      let sectionName := String.mk (targetId.toList.drop 1)
      match urls sectionName with
      | some u =>
        if u ≠ "" then { defaultPrevented, action := .openBlank u }
        else if elemExists targetId then { defaultPrevented, action := .scrollIntoView targetId }
        else { defaultPrevented, action := .noAction }
      | none =>
        if elemExists targetId then { defaultPrevented, action := .scrollIntoView targetId }
        else { defaultPrevented, action := .noAction }
    else
      { defaultPrevented, action := .noAction }

/-- A navigation card as `App.initializeCards` inspects it: the inner
`.nav-card-link` element if present (represented by its text), and the
`data-section` attribute (`none` when absent; JavaScript reads `''` as
falsy too). -/
structure Card where
  link : Option String
  sectionAttr : Option String
deriving DecidableEq

/-- What `App.initializeCards` attaches to one card: the card-level click
handler, the two hover handlers added by `addHoverEffects`, the inner
link's click handler, and any console output. -/
structure CardSetup where
  cardClickHandler : Bool
  hoverHandlers : Bool
  linkClickHandler : Bool
  logs : List LogEntry
deriving DecidableEq

/-- The empty setup: nothing attached, nothing logged. -/
def noSetup : CardSetup :=
  { cardClickHandler := false, hoverHandlers := false, linkClickHandler := false, logs := [] }

/-- Per-card body of `App.initializeCards` (`src/js/main.js` lines
268-290): `if (!link || !section) return;` skips the card silently
(the guard is falsy, so a present-but-empty `data-section` is also
skipped); otherwise the card click handler, the hover handlers and the
link click handler are all attached and nothing is logged. -/
def initializeCard (card : Card) : CardSetup :=
  match card.link, card.sectionAttr with
  | some _, some s =>
    if s = "" then noSetup
    else { cardClickHandler := true, hoverHandlers := true, linkClickHandler := true, logs := [] }
  | _, _ => noSetup

/-- `App.initializeCards` over the queried card list. -/
def initializeCards (cards : List Card) : List CardSetup :=
  cards.map initializeCard

example : initializeCard { link := none, sectionAttr := some "blog" } = noSetup := by decide
example : initializeCard { link := some "x", sectionAttr := none } = noSetup := by decide
example : (initializeCard { link := some "x", sectionAttr := some "blog" }).cardClickHandler = true := by decide
example :
    handleCardClick (configUrl CONFIG) (configAllowedDomains CONFIG) 500 1000 "blog"
      = { logs := [], scheduledNav := some (500, "https://blog.qulluq.com/") } := by decide
example :
    handleCardClick (configUrl CONFIG) (configAllowedDomains CONFIG) 500 1000 "news"
      = { logs := [.warn "No URL configured for section: news"], scheduledNav := none } := by decide

/-- The scroll-progress computation in `App.updateScrollIndicator`
(`src/js/main.js` lines 204-206): with `scrollHeight` rebound to
`scrollHeight - clientHeight`, the percentage is
`scrollHeight > 0 ? (scrollTop / scrollHeight) * 100 : 0`. JavaScript
numbers are modelled by rationals, on which the division is exact. -/
def updateScrollIndicator (scrollTop scrollHeight clientHeight : ℚ) : ℚ :=
  let overflow := scrollHeight - clientHeight
  if overflow > 0 then scrollTop / overflow * 100 else 0

/-- Mutable state touched by `App.updateHeaderVisibility`:
`this.lastScrollTop` (`none` before the first call, since the property
starts out undefined) and the header transform (`true` when the header
is translated out of view by `translateY(-100%)`). -/
structure HeaderState where
  lastScrollTop : Option Int
  headerHidden : Bool
deriving DecidableEq

/-- `App.updateHeaderVisibility` from `src/js/main.js` lines 214-229,
with the DOM reads passed explicitly (`headerFound` is whether
`Utils.safeQuerySelector('header')` finds the header, `scrollTop` the
current scroll offset). `if (!this.lastScrollTop) this.lastScrollTop = 0`
turns an unset (or zero) stored offset into `0`; when the header is
absent the function returns before touching the transform or the stored
offset; otherwise the header is hidden exactly when
`scrollTop > lastScrollTop && scrollTop > 100`, and afterwards
`this.lastScrollTop = scrollTop <= 0 ? 0 : scrollTop`. -/
def updateHeaderVisibility (headerFound : Bool) (scrollTop : Int)
    (st : HeaderState) : HeaderState :=
  let last : Int := (st.lastScrollTop).getD 0
  if !headerFound then { st with lastScrollTop := some last }
  else
    { headerHidden := decide (scrollTop > last ∧ scrollTop > 100)
      lastScrollTop := some (if scrollTop ≤ 0 then 0 else scrollTop) }

/-- Observer-related state of the `App` singleton:
`intersectionObserver` is the `this.intersectionObserver` property
(`none` while unassigned), `connected` the identities of observers
currently observing the navigation cards, `nextId` a supply of fresh
observer identities. -/
structure ObserverState where
  intersectionObserver : Option Nat
  connected : List Nat
  nextId : Nat
deriving DecidableEq

/-- The `App` singleton before `init()`: no observer property, nothing
connected. -/
def appStart : ObserverState :=
  { intersectionObserver := none, connected := [], nextId := 0 }

/-- `App.initializeIntersectionObserver` (`src/js/main.js` lines
346-365): `const observer = new IntersectionObserver(...)` creates a new
observer and `observer.observe(card)` connects it to the cards, but the
observer is held only in that local constant — `this.intersectionObserver`
is never assigned anywhere in the file. -/
def initializeIntersectionObserver (st : ObserverState) : ObserverState :=
  { st with connected := st.connected ++ [st.nextId], nextId := st.nextId + 1 }

/-- `App.init` as far as observer state is concerned: `bindEvents`,
`initializeNavigation` and `initializeCards` do not touch it, and
`initializeComponents` then runs `initializeIntersectionObserver`. -/
def appInit (st : ObserverState) : ObserverState :=
  initializeIntersectionObserver st

/-- `App.cleanup` (`src/js/main.js` lines 367-371):
`if (this.intersectionObserver) { this.intersectionObserver.disconnect(); }`
disconnects the observer stored on the singleton, when one is stored. -/
def cleanup (st : ObserverState) : ObserverState :=
  match st.intersectionObserver with
  | some i => { st with connected := st.connected.erase i }
  | none => st

/-- One scheduled-but-pending debounce timer: the time the wrapper was
last invoked plus its captured arguments (`args` also stands for the
captured `this` context, which `func.apply(this, args)` forwards). -/
def DebouncePending (α : Type) : Type := Option (Nat × α)

/-- Operational model of the wrapper returned by
`Utils.debounce(func, wait)` (`src/js/main.js` lines 73-83), run over a
time-stamped list of wrapper invocations (times nondecreasing). A
pending timer set at time `tp` fires at `tp + wait`; an invocation at
time `t` finds it already fired when `tp + wait ≤ t` (the execution is
recorded) and cancels it via `clearTimeout` otherwise; the invocation
then schedules a fresh timer. After the last invocation the remaining
timer fires unimpeded. The result lists the executions of `func` as
(time, arguments) pairs in order. -/
def debounceRun (wait : Nat) : List (Nat × α) → DebouncePending α → List (Nat × α)
  | [], none => []
  | [], some (tp, ap) => [(tp + wait, ap)]
  | (t, a) :: rest, none => debounceRun wait rest (some (t, a))
  | (t, a) :: rest, some (tp, ap) =>
    if tp + wait ≤ t then (tp + wait, ap) :: debounceRun wait rest (some (t, a))
    else debounceRun wait rest (some (t, a))

/-- A burst of time-stamped invocations for a given wait: times are
nondecreasing and each gap is strictly below the wait, so every earlier
timer is cancelled before it can fire. -/
def isBurst (wait : Nat) : List (Nat × α) → Bool
  | [] => true
  | [_] => true
  | p :: q :: rest => (p.1 ≤ q.1 && q.1 < p.1 + wait) && isBurst wait (q :: rest)

example : updateScrollIndicator 250 1000 500 = 50 := by norm_num [updateScrollIndicator]
example : updateScrollIndicator 0 1000 500 = 0 := by norm_num [updateScrollIndicator]
example : updateScrollIndicator 7 300 300 = 0 := by norm_num [updateScrollIndicator]
example : (updateHeaderVisibility true 150 ⟨some 0, false⟩).headerHidden = true := by decide
example : updateHeaderVisibility true 50 ⟨some 150, true⟩ = ⟨some 50, false⟩ := by decide
example : cleanup (appInit appStart) = ⟨none, [0], 1⟩ := by decide
example :
    debounceRun 16 [(0, 1), (1, 2), (2, 3), (3, 4), (5, 10)] none = [(21, 10)] := by decide

example :
    navLinkClick (some "#blog") (configUrl CONFIG) (fun _ => false)
      = { defaultPrevented := true, action := .openBlank "https://blog.qulluq.com/" } := by decide
example :
    navLinkClick (some "https://x.test/") (configUrl CONFIG) (fun _ => true)
      = { defaultPrevented := true, action := .noAction } := by decide
example : isBurst 16 [(0, 1), (1, 2), (5, 10)] = true := by decide
example : isBurst 16 [(0, 1), (20, 2)] = false := by decide

/-- C9: the scroll-progress computation equals
`(scrollTop / (scrollHeight - clientHeight)) * 100` whenever
`scrollHeight - clientHeight > 0`, and equals `0` whenever that
denominator is `≤ 0`, so the division is never taken with a zero (or
negative) denominator. -/
theorem updateScrollIndicator_spec (scrollTop scrollHeight clientHeight : ℚ) :
    (scrollHeight - clientHeight > 0 →
      updateScrollIndicator scrollTop scrollHeight clientHeight
        = scrollTop / (scrollHeight - clientHeight) * 100)
    ∧ (scrollHeight - clientHeight ≤ 0 →
      updateScrollIndicator scrollTop scrollHeight clientHeight = 0) := by
  constructor
  · intro h
    simp [updateScrollIndicator, h]
  · intro h
    simp [updateScrollIndicator, not_lt.mpr h]

/-- Witness for C9 at the spec's example inputs: `scrollTop = 250`,
`scrollHeight = 1000`, `clientHeight = 500` gives 50 percent, and equal
heights give 0 percent. -/
theorem updateScrollIndicator_spec_witness :
    updateScrollIndicator 250 1000 500 = 50 ∧ updateScrollIndicator 7 300 300 = 0 :=
  ⟨((updateScrollIndicator_spec 250 1000 500).1 (by norm_num)).trans (by norm_num),
   (updateScrollIndicator_spec 7 300 300).2 (by norm_num)⟩

/-- C8: when the header element is found, the update hides the header
exactly when the current offset exceeds both the previously stored
last-offset (an unset store reads as `0`) and `100`, and afterwards the
stored last-offset is `max 0 scrollTop`, hence never negative. -/
theorem updateHeaderVisibility_spec (headerFound : Bool) (scrollTop : Int)
    (st : HeaderState) (h : headerFound = true) :
    ((updateHeaderVisibility headerFound scrollTop st).headerHidden = true
      ↔ ((st.lastScrollTop).getD 0 < scrollTop ∧ 100 < scrollTop))
    ∧ (updateHeaderVisibility headerFound scrollTop st).lastScrollTop
        = some (max 0 scrollTop) := by
  subst h
  constructor
  · simp [updateHeaderVisibility]
  · simp only [updateHeaderVisibility, Bool.not_true]
    rcases le_or_lt scrollTop 0 with hle | hlt
    · simp [if_pos hle, max_eq_left hle]
    · simp [if_neg (not_le.mpr hlt), max_eq_right hlt.le]

/-- Witness for C8 at the spec's example: with stored last-offset `0`, a
scroll event at offset `150` hides the header and stores `150`. -/
theorem updateHeaderVisibility_spec_witness :
    (updateHeaderVisibility true 150 ⟨some 0, false⟩).headerHidden = true
    ∧ (updateHeaderVisibility true 150 ⟨some 0, false⟩).lastScrollTop = some 150 :=
  ⟨(updateHeaderVisibility_spec true 150 ⟨some 0, false⟩ rfl).1.mpr (by decide),
   ((updateHeaderVisibility_spec true 150 ⟨some 0, false⟩ rfl).2).trans (by decide)⟩

/-- C5 (evaluating the code at the failing scenario): running
`App.init()` and then `App.cleanup()` leaves the intersection observer
created by `initializeIntersectionObserver` connected, because
`this.intersectionObserver` is never assigned (the observer lives only
in a local constant), so the guard in `cleanup` never fires. -/
theorem cleanup_after_init_leaves_observer_connected :
    cleanup (appInit appStart)
      = { intersectionObserver := none, connected := [0], nextId := 1 }
    ∧ (cleanup (appInit appStart)).connected ≠ [] := by
  exact ⟨by decide, by decide⟩

/-- C6 counterexample: on the concrete string input
`"<script>alert(1)</script>"` the sanitizer returns the input verbatim —
the markup-significant characters are not neutralized, and the result
can still open a tag. -/
theorem sanitizeInput_keeps_markup :
    sanitizeInput (.vstr "<script>alert(1)</script>") = "<script>alert(1)</script>"
    ∧ markupNeutral (sanitizeInput (.vstr "<script>alert(1)</script>")) = false := by
  exact ⟨rfl, by decide⟩

/-- C6 amended: non-string inputs give the empty string, and every
string input is returned unchanged — the `textContent` write/read
round-trip performs no character rewriting, so markup-significant
characters are preserved verbatim rather than text-node encoded. -/
theorem sanitizeInput_behavior (s : String) (n : Int) (b : Bool) :
    sanitizeInput (.vstr s) = s
    ∧ sanitizeInput (.vnum n) = ""
    ∧ sanitizeInput (.vbool b) = ""
    ∧ sanitizeInput .vnull = ""
    ∧ sanitizeInput .vundef = "" :=
  ⟨rfl, rfl, rfl, rfl, rfl⟩

/-- C10: during card initialization, a card that lacks the inner
`.nav-card-link` element or lacks the `data-section` attribute is
skipped entirely — the corresponding setup attaches no card click
handler, no hover handlers and no link click handler, and logs
nothing. -/
theorem initializeCards_skips_incomplete (cards : List Card) (i : Nat) (c : Card)
    (hc : cards[i]? = some c)
    (h : c.link = none ∨ c.sectionAttr = none) :
    (initializeCards cards)[i]? = some noSetup
    ∧ noSetup.cardClickHandler = false
    ∧ noSetup.hoverHandlers = false
    ∧ noSetup.linkClickHandler = false
    ∧ noSetup.logs = [] := by
  refine ⟨?_, rfl, rfl, rfl, rfl⟩
  have hskip : initializeCard c = noSetup := by
    rcases c with ⟨l, sec⟩
    rcases h with h | h <;> simp only at h <;> subst h
    · cases sec <;> rfl
    · cases l <;> rfl
  show (cards.map initializeCard)[i]? = some noSetup
  rw [List.getElem?_map, hc, Option.map_some', hskip]

/-- Witness for C10: a two-card list whose second card has no
`data-section` attribute; that card's setup is empty. -/
theorem initializeCards_skips_incomplete_witness :
    (initializeCards
        [ { link := some "Blog", sectionAttr := some "blog" }
        , { link := some "About", sectionAttr := none } ])[1]? = some noSetup
    ∧ noSetup.cardClickHandler = false
    ∧ noSetup.hoverHandlers = false
    ∧ noSetup.linkClickHandler = false
    ∧ noSetup.logs = [] :=
  initializeCards_skips_incomplete
    [ { link := some "Blog", sectionAttr := some "blog" }
    , { link := some "About", sectionAttr := none } ]
    1 { link := some "About", sectionAttr := none } rfl (Or.inr rfl)

/-- C3 counterexample: the strict-mode assignment
`CONFIG.selectors.loading = '#changed'` succeeds (the `selectors`
literal is never passed to `Object.freeze`), and the resulting
configuration differs from the one constructed at startup. -/
theorem config_mutation_succeeds :
    setSectionField CONFIG "selectors" "loading" (.lstr "#changed") = some CONFIG_mutated
    ∧ CONFIG_mutated ≠ CONFIG := by
  exact ⟨by decide, by decide⟩

/-- C3 amended: `Object.freeze` protects exactly the layers it was
applied to — every assignment to a top-level `CONFIG` property, to a
field of `urls` or `security`, or to an element of `allowedDomains`
throws; but the `selectors` (likewise `classes`, `animation`) sections
are not frozen, so their fields can be reassigned. -/
theorem config_freeze_extent :
    (∀ sec v, setTopLevel CONFIG sec v = none)
    ∧ (∀ k v, setSectionField CONFIG "urls" k v = none)
    ∧ (∀ k v, setSectionField CONFIG "security" k v = none)
    ∧ (∀ i x, setArrayElem CONFIG "security" "allowedDomains" i x = none)
    ∧ (setSectionField CONFIG "selectors" "loading" (.lstr "#x")).isSome = true
    ∧ (setSectionField CONFIG "classes" "hidden" (.lstr "shown")).isSome = true
    ∧ (setSectionField CONFIG "animation" "loadingDelay" (.lnum 0)).isSome = true := by
  refine ⟨fun sec v => rfl, fun k v => rfl, fun k v => rfl, fun i x => rfl,
    by decide, by decide, by decide⟩

/-- C1: for every card click, a section with no configured URL (absent
entry, or the falsy empty string) produces exactly one warning and
schedules no navigation; a configured URL that fails `isValidUrl`
against the allow-list produces exactly one error and schedules no
navigation; and navigation is scheduled only for the configured URL of
the section and only when that URL passes validation. -/
theorem handleCardClick_guards (urls : String → Option String) (ds : List String)
    (nd mrd : Nat) (sec : String) :
    ((urls sec = none ∨ urls sec = some "") →
      (handleCardClick urls ds nd mrd sec).logs
          = [.warn ("No URL configured for section: " ++ sec)]
        ∧ (handleCardClick urls ds nd mrd sec).scheduledNav = none)
    ∧ (∀ u, urls sec = some u → u ≠ "" → isValidUrl (.vstr u) ds = false →
      (handleCardClick urls ds nd mrd sec).logs
          = [.error ("Invalid or unauthorized URL: " ++ u)]
        ∧ (handleCardClick urls ds nd mrd sec).scheduledNav = none)
    ∧ (∀ d u, (handleCardClick urls ds nd mrd sec).scheduledNav = some (d, u) →
      urls sec = some u ∧ isValidUrl (.vstr u) ds = true ∧ d = min nd mrd) := by
  refine ⟨?_, ?_, ?_⟩
  · rintro (h | h) <;> simp [handleCardClick, h]
  · intro u hu hne hval
    simp [handleCardClick, hu, hne, hval]
  · intro d u hnav
    rcases hcfg : urls sec with _ | v
    · simp [handleCardClick, hcfg] at hnav
    · by_cases hv : v = ""
      · simp [handleCardClick, hcfg, hv] at hnav
      · by_cases hval : isValidUrl (.vstr v) ds = true
        · have hrun : handleCardClick urls ds nd mrd sec
              = { logs := [], scheduledNav := some (min nd mrd, v) } := by
            simp [handleCardClick, hcfg, hv, hval]
          rw [hrun] at hnav
          simp only [Option.some.injEq, Prod.mk.injEq] at hnav
          obtain ⟨hd, hu⟩ := hnav
          subst hu
          exact ⟨rfl, hval, hd.symm⟩
        · have hfalse : isValidUrl (.vstr v) ds = false := by
            cases hisv : isValidUrl (.vstr v) ds
            · rfl
            · exact absurd hisv hval
          simp [handleCardClick, hcfg, hv, hfalse] at hnav

/-- Witness for C1 at the repository's own configuration: section
`"news"` has no configured URL, so the card click warns once and
schedules nothing. -/
theorem handleCardClick_guards_witness :
    (handleCardClick (configUrl CONFIG) (configAllowedDomains CONFIG) 500 1000 "news").logs
        = [.warn ("No URL configured for section: " ++ "news")]
    ∧ (handleCardClick (configUrl CONFIG) (configAllowedDomains CONFIG) 500 1000
        "news").scheduledNav = none :=
  (handleCardClick_guards (configUrl CONFIG) (configAllowedDomains CONFIG) 500 1000 "news").1
    (Or.inl (by decide))

/-- C4 counterexample: a click on a navigation link whose target
`"https://example.org/page"` is not a fragment still has its default
action prevented — `e.preventDefault()` runs before the fragment test,
so the default is not left to the browser. -/
theorem navLinkClick_nonfragment_still_prevented :
    (navLinkClick (some "https://example.org/page") (configUrl CONFIG)
        (fun _ => false)).defaultPrevented = true
    ∧ jsStartsWith "https://example.org/page" "#" = false
    ∧ (navLinkClick (some "https://example.org/page") (configUrl CONFIG)
        (fun _ => false)).action = .noAction := by
  exact ⟨by decide, by decide, by decide⟩

/-- C4 amended: the handler prevents the default action on every click,
fragment or not (it is the handler's first statement); any action beyond
that — opening a configured URL or smooth-scrolling — happens only for a
non-empty fragment target, so non-fragment links end up inert rather
than left to default handling. -/
theorem navLinkClick_always_prevents (href : Option String)
    (urls : String → Option String) (elemExists : String → Bool) :
    (navLinkClick href urls elemExists).defaultPrevented = true
    ∧ ((navLinkClick href urls elemExists).action ≠ .noAction →
        ∃ t, href = some t ∧ t ≠ "" ∧ jsStartsWith t "#" = true) := by
  constructor
  · rcases href with _ | t
    · rfl
    · simp only [navLinkClick]
      split
      · rcases hcfg : urls (String.mk (t.toList.drop 1)) with _ | v
        · simp only [hcfg]
          split <;> rfl
        · simp only [hcfg]
          split
          · rfl
          · split <;> rfl
      · rfl
  · intro hact
    rcases href with _ | t
    · simp [navLinkClick] at hact
    · refine ⟨t, rfl, ?_⟩
      by_contra hcond
      rw [not_and_or] at hcond
      have : ¬(t ≠ "" ∧ jsStartsWith t "#" = true) := by
        rcases hcond with h | h
        · push_neg at h
          exact fun hc => hc.1 h
        · exact fun hc => h hc.2
      simp [navLinkClick, if_neg this] at hact

/-- Witness for C4: the fragment link `"#blog"` resolves to the
configured blog URL, so its action is not `noAction`, and the amended
theorem yields both the prevented default and the fragment shape of the
target. -/
theorem navLinkClick_always_prevents_witness :
    (navLinkClick (some "#blog") (configUrl CONFIG) (fun _ => false)).defaultPrevented = true
    ∧ ∃ t, (some "#blog" : Option String) = some t ∧ t ≠ "" ∧ jsStartsWith t "#" = true :=
  ⟨(navLinkClick_always_prevents (some "#blog") (configUrl CONFIG) (fun _ => false)).1,
   (navLinkClick_always_prevents (some "#blog") (configUrl CONFIG) (fun _ => false)).2
     (by decide)⟩

/-- Helper: within a burst, a pending timer is cancelled by every later
invocation, so the run with a pending call reduces to a single trailing
execution carrying the last call of the burst. -/
theorem debounceRun_burst {α : Type} (wait : Nat) :
    ∀ (calls : List (Nat × α)) (p : Nat × α), isBurst wait (p :: calls) = true →
      debounceRun wait calls (some p)
        = [((calls.getLastD p).1 + wait, (calls.getLastD p).2)] := by
  intro calls
  induction calls with
  | nil => intro p _; rfl
  | cons q rest ih =>
    intro p hb
    simp only [isBurst, Bool.and_eq_true, decide_eq_true_eq] at hb
    obtain ⟨⟨hle, hlt⟩, hb'⟩ := hb
    have hnofire : ¬(p.1 + wait ≤ q.1) := by omega
    have hb'' : isBurst wait (q :: rest) = true := hb'
    calc debounceRun wait (q :: rest) (some p)
        = debounceRun wait rest (some q) := by
          rcases p with ⟨tp, ap⟩
          rcases q with ⟨t, a⟩
          simp only [debounceRun, if_neg hnofire]
      _ = [((rest.getLastD q).1 + wait, (rest.getLastD q).2)] := ih q hb''
      _ = [(((q :: rest).getLastD p).1 + wait, ((q :: rest).getLastD p).2)] := by
          rw [List.getLastD_cons]

/-- Helper: every invocation time in a burst is bounded by the time of
the burst's last invocation. -/
theorem isBurst_time_le_last {α : Type} (wait : Nat) :
    ∀ (calls : List (Nat × α)) (p : Nat × α), isBurst wait (p :: calls) = true →
      ∀ q ∈ p :: calls, q.1 ≤ (calls.getLastD p).1 := by
  intro calls
  induction calls with
  | nil =>
    intro p _ q hq
    simp only [List.mem_singleton] at hq
    simp [hq]
  | cons r rest ih =>
    intro p hb q hq
    simp only [isBurst, Bool.and_eq_true, decide_eq_true_eq] at hb
    obtain ⟨⟨hle, _⟩, hb'⟩ := hb
    have hb'' : isBurst wait (r :: rest) = true := hb'
    rw [List.getLastD_cons]
    rcases List.mem_cons.mp hq with hq | hq
    · subst hq
      have hr := ih r hb'' r (List.mem_cons_self r rest)
      omega
    · exact ih r hb'' q hq

/-- C7: over any burst of invocations (nondecreasing times, every gap
strictly below the wait) the debounced wrapper executes the underlying
function exactly once, with the arguments (and captured context) of the
last invocation, at the last invocation's time plus the wait — and so
never on the leading edge: with a positive wait the single execution is
strictly later than every invocation of the burst. -/
theorem debounce_trailing_edge {α : Type} (wait : Nat) (first : Nat × α)
    (rest : List (Nat × α)) (hb : isBurst wait (first :: rest) = true) :
    debounceRun wait (first :: rest) none
      = [((rest.getLastD first).1 + wait, (rest.getLastD first).2)]
    ∧ (0 < wait → ∀ p ∈ first :: rest, p.1 < (rest.getLastD first).1 + wait) := by
  constructor
  · have hstep : debounceRun wait (first :: rest) none
        = debounceRun wait rest (some first) := by
      rcases first with ⟨t, a⟩
      rfl
    rw [hstep]
    exact debounceRun_burst wait rest first hb
  · intro hw p hp
    have := isBurst_time_le_last wait rest first hb p hp
    omega

/-- Witness for C7 at the spec's example: ten invocations within five
milliseconds with wait 16 collapse to exactly one execution, carrying
the arguments of the tenth invocation, 16ms after the last call —
strictly after the whole burst. -/
theorem debounce_trailing_edge_witness :
    debounceRun 16
        [(0, 1), (1, 2), (1, 3), (2, 4), (2, 5), (3, 6), (3, 7), (4, 8), (4, 9), (5, 10)]
        none
      = [(21, 10)]
    ∧ (5 : Nat) < 21 :=
  ⟨(debounce_trailing_edge 16 (0, 1)
      [(1, 2), (1, 3), (2, 4), (2, 5), (3, 6), (3, 7), (4, 8), (4, 9), (5, 10)]
      (by decide)).1,
   (debounce_trailing_edge 16 (0, 1)
      [(1, 2), (1, 3), (2, 4), (2, 5), (3, 6), (3, 7), (4, 8), (4, 9), (5, 10)]
      (by decide)).2 (by decide) (5, 10) (by decide)⟩

/-- C2: `isValidUrl` accepts exactly the string inputs that parse as an
absolute URL whose scheme is exactly `http` or `https` and which, when
the allow-list is non-empty, have a host equal to an allowed domain or
ending with `'.'` followed by one; with an empty allow-list the protocol
check alone decides. In particular every non-string and every
non-parsing candidate is rejected for any allow-list. -/
theorem isValidUrl_characterization (v : JsInput) (ds : List String) :
    isValidUrl v ds = true ↔
      ∃ s u, v = .vstr s ∧ parseURL s = some u
        ∧ (u.protocol = "http:" ∨ u.protocol = "https:")
        ∧ (ds = [] ∨ ∃ d ∈ ds, u.hostname = d ∨ jsEndsWith u.hostname ("." ++ d) = true) := by
  cases v with
  | vstr s =>
    cases hp : parseURL s with
    | none => simp [isValidUrl, hp]
    | some u =>
      cases ds with
      | nil => simp [isValidUrl, hp]
      | cons d t => simp [isValidUrl, hp, List.any_eq_true]
  | vnum n => simp [isValidUrl]
  | vbool b => simp [isValidUrl]
  | vnull => simp [isValidUrl]
  | vundef => simp [isValidUrl]
